import Mathlib

/-!
Verification of the django-ca extension value model and ACME response layer.

The development shallowly embeds the Python classes of
`django_ca/extensions/utils.py`, `django_ca/acme.py` and
`django_ca/management/base.py`:

* mutable objects become immutable Lean structures with explicit
  state-passing operations;
* fallible Python code (raising `ValueError`, `IndexError`,
  `AttributeError`, `KeyError`, `UnboundLocalError`, `CommandError`)
  becomes functions into `Except PyError _`;
* Python `None` becomes `Option.none`, Python dictionaries with a fixed
  key set become structures with `Option` fields (a missing key is
  `none`).
-/

/-- The Python exceptions raised by the embedded code. -/
inductive PyError where
  | valueError (msg : String)
  | indexError (msg : String)
  | attributeError (msg : String)
  | keyError (msg : String)
  | unboundLocalError (name : String)
  | commandError (msg : String)
deriving DecidableEq, Repr

/-- Monadic map over a list for `Except`, written by explicit recursion so
that proofs can unfold it directly. -/
def exceptMapM (f : α → Except PyError β) : List α → Except PyError (List β)
  | [] => .ok []
  | a :: l =>
    match f a with
    | .error e => .error e
    | .ok b =>
      match exceptMapM f l with
      | .error e => .error e
      | .ok bs => .ok (b :: bs)

/-- Python `force_str` applied to an optional string: `force_str(None)`
renders the text `None`, a string is returned unchanged. -/
def forceStrOpt : Option String → String
  | none => "None"
  | some s => s

/-- Python list index resolution, first step: a negative index counts
from the end. -/
def pyResolvedIndex (len : Nat) (i : Int) : Int :=
  if i < 0 then i + (len : Int) else i

/-- Python list index resolution: `none` when the resolved index is out
of range. -/
def pyIndex (len : Nat) (i : Int) : Option Nat :=
  if 0 ≤ pyResolvedIndex len i ∧ pyResolvedIndex len i < (len : Int)
  then some (pyResolvedIndex len i).toNat else none

/-- Python `list.insert` index resolution: negative indices count from the
end and are clamped at 0, indices past the end are clamped to the length. -/
def pyInsertIndex (len : Nat) (i : Int) : Nat :=
  if i < 0 then (i + (len : Int)).toNat else min i.toNat len

/-- `x509.NoticeReference`: an organization (optional in the cryptography
class) and a list of notice numbers. -/
structure NoticeReference where
  organization : Option String
  noticeNumbers : List Int
deriving DecidableEq, Repr

/-- `x509.UserNotice`: optional explicit text and optional notice
reference. -/
structure UserNotice where
  explicitText : Option String
  noticeReference : Option NoticeReference
deriving DecidableEq, Repr

/-- A parsed policy qualifier (`PolicyQualifier` type hint): either a
free-text string or a user notice. -/
inductive PolicyQualifier where
  | text (s : String)
  | notice (u : UserNotice)
deriving DecidableEq, Repr

/-- The `notice_reference` entry of a parsable policy-qualifier dict:
absent (`None`), a nested dict, or an already-built
`x509.NoticeReference`.  In the dict form, `organization` distinguishes a
missing key (outer `none`) from a key present with value `None` (inner
`none`), matching `dict.get` with a default. -/
inductive NoticeReferenceInput where
  | absent
  | dict (organization : Option (Option String)) (noticeNumbers : Option (List Int))
  | obj (nr : NoticeReference)
deriving DecidableEq, Repr

/-- A parsable policy qualifier (`ParsablePolicyQualifier` type hint):
a string, an `x509.UserNotice`, or a dict. -/
inductive ParsableQualifier where
  | str (s : String)
  | userNotice (u : UserNotice)
  | dict (explicitText : Option String) (noticeReference : NoticeReferenceInput)
deriving DecidableEq, Repr

/-- `PolicyInformation._parse_policy_qualifier`.  The inputs representable
in the embedding are exactly those that do not hit the two `ValueError`
branches for foreign types, so the embedded parser is total. -/
def parsePolicyQualifier : ParsableQualifier → PolicyQualifier
  | .str s => .text s
  | .userNotice u => .notice u
  | .dict explicitText noticeReference =>
    let nr : Option NoticeReference :=
      match noticeReference with
      | .absent => none
      | .dict org nn =>
        some { organization := some (match org with
                | none => ""
                | some v => forceStrOpt v),
               noticeNumbers := nn.getD [] }
      | .obj nr => some nr
    .notice { explicitText := explicitText, noticeReference := nr }

/-- A serialized notice reference (`notice_numbers` and `organization`
keys, both always written by `_serialize_policy_qualifier`). -/
structure SerializedNoticeReference where
  noticeNumbers : List Int
  organization : Option String
deriving DecidableEq, Repr

/-- A serialized policy qualifier (`SerializedPolicyQualifier` type hint):
a string, or a dict whose keys are present only when truthy. -/
inductive SerializedQualifier where
  | str (s : String)
  | dict (explicitText : Option String) (noticeReference : Option SerializedNoticeReference)
deriving DecidableEq, Repr

/-- Python truthiness of an optional string (`None` and the empty string
are falsy). -/
def truthyStr : Option String → Bool
  | none => false
  | some s => !(s = "")

/-- `PolicyInformation._serialize_policy_qualifier`. -/
def serializePolicyQualifier : PolicyQualifier → SerializedQualifier
  | .text s => .str s
  | .notice u =>
    .dict (if truthyStr u.explicitText then u.explicitText else none)
      (u.noticeReference.map fun nr =>
        { noticeNumbers := nr.noticeNumbers, organization := nr.organization })

/-- Reading a serialized qualifier back as constructor input: a serialized
dict re-enters `_parse_policy_qualifier` as a dict whose
`notice_reference` keys are all present (`organization` possibly holding
`None`). -/
def SerializedQualifier.toParsable : SerializedQualifier → ParsableQualifier
  | .str s => .str s
  | .dict explicitText noticeReference =>
    .dict explicitText
      (match noticeReference with
       | none => .absent
       | some nr => .dict (some nr.organization) (some nr.noticeNumbers))

/-- `PolicyInformation`: the policy identifier is kept as its dotted
string (the `policy_identifier` property setter turns any string into an
`ObjectIdentifier` and `dotted_string` reads it back), the qualifiers are
`None` or a list. -/
structure PolicyInformation where
  policyIdentifier : Option String
  policyQualifiers : Option (List PolicyQualifier)
deriving DecidableEq, Repr

/-- `PolicyInformation(None)`: both fields are set to `None`. -/
def PolicyInformation.initNone : PolicyInformation :=
  { policyIdentifier := none, policyQualifiers := none }

/-- `PolicyInformation(dict)`: the `policy_identifier` key is required,
`policy_qualifiers` is read with `dict.get` and parsed
(`parse_policy_qualifiers` maps `None` to `None` and a list, possibly
empty, to the list of parsed entries). -/
def PolicyInformation.initDict (policyIdentifier : String)
    (policyQualifiers : Option (List ParsableQualifier)) : PolicyInformation :=
  { policyIdentifier := some policyIdentifier,
    policyQualifiers := policyQualifiers.map (List.map parsePolicyQualifier) }

/-- Empty-list-to-None normalization used by `pop`, `remove` and
`__delitem__` after shrinking the list. -/
def normalizeQualifiers (l : List PolicyQualifier) : Option (List PolicyQualifier) :=
  if l = [] then none else some l

/-- `PolicyInformation.append`. -/
def PolicyInformation.append (pi : PolicyInformation) (v : ParsableQualifier) :
    PolicyInformation :=
  { pi with
      policyQualifiers := some (pi.policyQualifiers.getD [] ++ [parsePolicyQualifier v]) }

/-- `PolicyInformation.insert`. -/
def PolicyInformation.insertQualifier (pi : PolicyInformation) (index : Int)
    (v : ParsableQualifier) : PolicyInformation :=
  let l := pi.policyQualifiers.getD []
  { pi with
      policyQualifiers :=
        some (l.insertIdx (pyInsertIndex l.length index) (parsePolicyQualifier v)) }

/-- `PolicyInformation.extend`. -/
def PolicyInformation.extend (pi : PolicyInformation)
    (vs : List ParsableQualifier) : PolicyInformation :=
  { pi with
      policyQualifiers :=
        some (pi.policyQualifiers.getD [] ++ vs.map parsePolicyQualifier) }

/-- `PolicyInformation.clear`. -/
def PolicyInformation.clear (pi : PolicyInformation) : PolicyInformation :=
  { pi with policyQualifiers := none }

/-- `PolicyInformation.pop`: on a `None` qualifier list the method pops
from an empty literal list, so it raises `IndexError` exactly as an empty
list would; otherwise it pops at the (possibly negative) index, serializes
the removed qualifier and normalizes an emptied list back to `None`. -/
def PolicyInformation.pop (pi : PolicyInformation) (index : Int) :
    Except PyError (SerializedQualifier × PolicyInformation) :=
  match pi.policyQualifiers with
  | none => .error (.indexError "pop from empty list")
  | some l =>
    match pyIndex l.length index with
    | none =>
      if l = [] then .error (.indexError "pop from empty list")
      else .error (.indexError "pop index out of range")
    | some j =>
      match l.get? j with
      | none => .error (.indexError "pop index out of range")
      | some q =>
        .ok (serializePolicyQualifier q,
          { pi with policyQualifiers := normalizeQualifiers (l.eraseIdx j) })

/-- `PolicyInformation.__delitem__` with an integer key. -/
def PolicyInformation.delItem (pi : PolicyInformation) (index : Int) :
    Except PyError PolicyInformation :=
  match pi.policyQualifiers with
  | none => .error (.indexError "list assignment index out of range")
  | some l =>
    match pyIndex l.length index with
    | none => .error (.indexError "list assignment index out of range")
    | some j =>
      .ok { pi with policyQualifiers := normalizeQualifiers (l.eraseIdx j) }

/-- `PolicyInformation.remove`: `ValueError` on a `None` qualifier list or
a missing element, otherwise the first occurrence of the parsed value is
removed, an emptied list is normalized to `None`, and the parsed value is
returned. -/
def PolicyInformation.removeQualifier (pi : PolicyInformation)
    (v : ParsableQualifier) : Except PyError (PolicyQualifier × PolicyInformation) :=
  match pi.policyQualifiers with
  | none => .error (.valueError "not in list")
  | some l =>
    if parsePolicyQualifier v ∈ l then
      .ok (parsePolicyQualifier v,
        { pi with policyQualifiers := normalizeQualifiers (l.erase (parsePolicyQualifier v)) })
    else .error (.valueError "not in list")

/-- `PolicyInformation.__len__`. -/
def PolicyInformation.lenQualifiers (pi : PolicyInformation) : Nat :=
  (pi.policyQualifiers.getD []).length

/-- `PolicyInformation.__contains__`. -/
def PolicyInformation.containsQualifier (pi : PolicyInformation)
    (v : ParsableQualifier) : Bool :=
  match pi.policyQualifiers with
  | none => false
  | some l => decide (parsePolicyQualifier v ∈ l)

/-- `PolicyInformation.serialize_policy_qualifiers`. -/
def PolicyInformation.serializeQualifiers (pi : PolicyInformation) :
    Option (List SerializedQualifier) :=
  pi.policyQualifiers.map (List.map serializePolicyQualifier)

/-- The serialized form of a `PolicyInformation`: the
`policy_qualifiers` key is `none` when absent from the dict. -/
structure SerializedPolicyInformation where
  policyIdentifier : String
  policyQualifiers : Option (List SerializedQualifier)
deriving DecidableEq, Repr

/-- `PolicyInformation.serialize`: reads `dotted_string` off the policy
identifier (an `AttributeError` on `None`) and writes the
`policy_qualifiers` key only when the serialized qualifier list is truthy
(neither `None` nor empty). -/
def PolicyInformation.serialize (pi : PolicyInformation) :
    Except PyError SerializedPolicyInformation :=
  match pi.policyIdentifier with
  | none => .error (.attributeError "NoneType object has no attribute dotted_string")
  | some oid =>
    .ok { policyIdentifier := oid,
          policyQualifiers :=
            match pi.serializeQualifiers with
            | none => none
            | some l => if l = [] then none else some l }

/-- `x509.ReasonFlags`: the CRL revocation reason members of the
cryptography enum. -/
inductive ReasonFlags where
  | unspecified
  | key_compromise
  | ca_compromise
  | affiliation_changed
  | superseded
  | cessation_of_operation
  | certificate_hold
  | privilege_withdrawn
  | aa_compromise
  | remove_from_crl
deriving DecidableEq, Repr

/-- The Python member name of a reason flag (`r.name`). -/
def reasonName : ReasonFlags → String
  | .unspecified => "unspecified"
  | .key_compromise => "key_compromise"
  | .ca_compromise => "ca_compromise"
  | .affiliation_changed => "affiliation_changed"
  | .superseded => "superseded"
  | .cessation_of_operation => "cessation_of_operation"
  | .certificate_hold => "certificate_hold"
  | .privilege_withdrawn => "privilege_withdrawn"
  | .aa_compromise => "aa_compromise"
  | .remove_from_crl => "remove_from_crl"

/-- `x509.ReasonFlags[name]`: enum lookup by member name, a `KeyError` for
an unknown name. -/
def reasonOfName (s : String) : Except PyError ReasonFlags :=
  if s = "unspecified" then .ok .unspecified
  else if s = "key_compromise" then .ok .key_compromise
  else if s = "ca_compromise" then .ok .ca_compromise
  else if s = "affiliation_changed" then .ok .affiliation_changed
  else if s = "superseded" then .ok .superseded
  else if s = "cessation_of_operation" then .ok .cessation_of_operation
  else if s = "certificate_hold" then .ok .certificate_hold
  else if s = "privilege_withdrawn" then .ok .privilege_withdrawn
  else if s = "aa_compromise" then .ok .aa_compromise
  else if s = "remove_from_crl" then .ok .remove_from_crl
  else .error (.keyError s)

/-- A `frozenset` of reason flags, represented by its membership map over
the ten members; equality of these structures is exactly set equality. -/
structure ReasonSet where
  unspecified : Bool
  key_compromise : Bool
  ca_compromise : Bool
  affiliation_changed : Bool
  superseded : Bool
  cessation_of_operation : Bool
  certificate_hold : Bool
  privilege_withdrawn : Bool
  aa_compromise : Bool
  remove_from_crl : Bool
deriving DecidableEq, Repr

/-- The empty frozenset. -/
def ReasonSet.empty : ReasonSet :=
  ⟨false, false, false, false, false, false, false, false, false, false⟩

/-- Set membership. -/
def ReasonSet.mem (s : ReasonSet) : ReasonFlags → Bool
  | .unspecified => s.unspecified
  | .key_compromise => s.key_compromise
  | .ca_compromise => s.ca_compromise
  | .affiliation_changed => s.affiliation_changed
  | .superseded => s.superseded
  | .cessation_of_operation => s.cessation_of_operation
  | .certificate_hold => s.certificate_hold
  | .privilege_withdrawn => s.privilege_withdrawn
  | .aa_compromise => s.aa_compromise
  | .remove_from_crl => s.remove_from_crl

/-- Insertion of one flag. -/
def ReasonSet.insertFlag (s : ReasonSet) : ReasonFlags → ReasonSet
  | .unspecified => { s with unspecified := true }
  | .key_compromise => { s with key_compromise := true }
  | .ca_compromise => { s with ca_compromise := true }
  | .affiliation_changed => { s with affiliation_changed := true }
  | .superseded => { s with superseded := true }
  | .cessation_of_operation => { s with cessation_of_operation := true }
  | .certificate_hold => { s with certificate_hold := true }
  | .privilege_withdrawn => { s with privilege_withdrawn := true }
  | .aa_compromise => { s with aa_compromise := true }
  | .remove_from_crl => { s with remove_from_crl := true }

/-- `frozenset(l)` for a list of flags. -/
def reasonSetOfList (l : List ReasonFlags) : ReasonSet :=
  l.foldl ReasonSet.insertFlag ReasonSet.empty

/-- Python truthiness of the frozenset (empty is falsy). -/
def ReasonSet.isEmpty (s : ReasonSet) : Bool :=
  s = ReasonSet.empty

/-- The ten members listed in alphabetical order of their Python names. -/
def reasonsSortedByName : List ReasonFlags :=
  [.aa_compromise, .affiliation_changed, .ca_compromise, .certificate_hold,
   .cessation_of_operation, .key_compromise, .privilege_withdrawn,
   .remove_from_crl, .superseded, .unspecified]

/-- `sorted([r.name for r in s])`: since a set over the ten members has no
duplicates, the sorted list of member names equals the alphabetical list
of all member names filtered by membership. -/
def ReasonSet.sortedNames (s : ReasonSet) : List String :=
  (reasonsSortedByName.filter s.mem).map reasonName

/-- Modelled from the spec: `GeneralNameList` and its
`get_from_value`/`serialize` live in `django_ca/utils.py`, which is not
under src/.  General names serialize to prefixed strings such as
`URI:http://example.com` and parse back from exactly those strings; the
mapping is a bijection on valid names, so a general name is modelled by
its serialized string and `GeneralNameList.serialize` is the identity on
the name list. -/
def getFromValue (v : Option (List String)) : Option (List String) := v

/-- Modelled from the spec: `x509_relative_name` (parsing a string such as
`/CN=example.com`) and `format_relative_name` (its inverse) live in
`django_ca/utils.py`, which is not under src/.  They are mutually inverse
on canonical strings, so the parsed relative name is modelled by its
canonical string and both functions become the identity. -/
def x509RelativeName (s : String) : String := s

/-- Modelled from the spec: inverse of `x509RelativeName`, see there. -/
def formatRelativeName (s : String) : String := s

/-- `DistributionPoint`: the four optional fields; general names are kept
in serialized string form (see `getFromValue`) and the reasons as a
`ReasonSet`. -/
structure DistributionPoint where
  full_name : Option (List String)
  relative_name : Option String
  crl_issuer : Option (List String)
  reasons : Option ReasonSet
deriving DecidableEq, Repr

/-- The ``dict`` argument of `DistributionPoint.__init__`: every field is
optional, reasons arrive as a list of member-name strings. -/
structure DPDict where
  full_name : Option (List String)
  relative_name : Option String
  crl_issuer : Option (List String)
  reasons : Option (List String)
deriving DecidableEq, Repr

/-- `DistributionPoint.__init__` for a ``dict`` argument: after reading
the four keys it raises `ValueError` when both `full_name` and
`relative_name` are set (before any reason parsing), then parses the
relative name and builds the reasons frozenset via `ReasonFlags[r]`
(`KeyError` on an unknown name). -/
def DistributionPoint.init (d : DPDict) : Except PyError DistributionPoint :=
  if (getFromValue d.full_name).isSome && d.relative_name.isSome then
    .error (.valueError "full_name and relative_name cannot both have a value")
  else
    match d.reasons with
    | none =>
      .ok { full_name := getFromValue d.full_name,
            relative_name := d.relative_name.map x509RelativeName,
            crl_issuer := getFromValue d.crl_issuer, reasons := none }
    | some names =>
      match exceptMapM reasonOfName names with
      | .error e => .error e
      | .ok flags =>
        .ok { full_name := getFromValue d.full_name,
              relative_name := d.relative_name.map x509RelativeName,
              crl_issuer := getFromValue d.crl_issuer,
              reasons := some (reasonSetOfList flags) }

/-- `DistributionPoint.serialize`: each present field is written
(`is not None`, so an empty name list or empty reason set is still
written); reasons become the sorted list of member names. -/
def DistributionPoint.serialize (dp : DistributionPoint) : DPDict :=
  { full_name := dp.full_name,
    relative_name := dp.relative_name.map formatRelativeName,
    crl_issuer := dp.crl_issuer,
    reasons := dp.reasons.map ReasonSet.sortedNames }

/-- `DistributionPoint.as_text`: the local `text` is only assigned when
`full_name` or `relative_name` is set; with neither set the first later
use raises `UnboundLocalError`.  `crl_issuer` is appended when not `None`,
reasons only when truthy (non-empty). -/
def DistributionPoint.asText (dp : DistributionPoint) : Except PyError String :=
  let base : Except PyError String :=
    match dp.full_name with
    | some names =>
      .ok ("* Full Name:\n" ++ String.intercalate "\n" (names.map (fun s => "  * " ++ s)))
    | none =>
      match dp.relative_name with
      | some rn => .ok ("* Relative Name: " ++ formatRelativeName rn)
      | none => .error (.unboundLocalError "text")
  match base with
  | .error e => .error e
  | .ok t0 =>
    let t1 :=
      match dp.crl_issuer with
      | some names =>
        t0 ++ "\n* CRL Issuer:\n" ++ String.intercalate "\n" (names.map (fun s => "  * " ++ s))
      | none => t0
    let t2 :=
      match dp.reasons with
      | some rs =>
        if rs.isEmpty then t1
        else t1 ++ "\n* Reasons: " ++ String.intercalate ", " rs.sortedNames
      | none => t1
    .ok t2

/-- Python `repr` of a string, for quote-free strings (escaping is not
needed for the values the development evaluates). -/
def pyReprStr (s : String) : String := "\x27" ++ s ++ "\x27"

/-- Python `repr` of a list of ints. -/
def pyReprIntList (l : List Int) : String :=
  "[" ++ String.intercalate ", " (l.map toString) ++ "]"

/-- Python `repr` of a serialized policy qualifier (a string or a dict in
insertion order `explicit_text`, `notice_reference`). -/
def pyReprSerializedQualifier : SerializedQualifier → String
  | .str s => pyReprStr s
  | .dict et nr =>
    let items : List String :=
      (match et with
       | none => []
       | some s => [pyReprStr "explicit_text" ++ ": " ++ pyReprStr s]) ++
      (match nr with
       | none => []
       | some r =>
         [pyReprStr "notice_reference" ++ ": \x7b" ++
          pyReprStr "notice_numbers" ++ ": " ++ pyReprIntList r.noticeNumbers ++ ", " ++
          pyReprStr "organization" ++ ": " ++
          (match r.organization with | none => "None" | some o => pyReprStr o) ++ "\x7d"])
    "\x7b" ++ String.intercalate ", " items ++ "\x7d"

/-- Python `repr` of `serialize_policy_qualifiers()`. -/
def pyReprSerializedQualifiers : Option (List SerializedQualifier) → String
  | none => "None"
  | some l => "[" ++ String.intercalate ", " (l.map pyReprSerializedQualifier) ++ "]"

/-- `PolicyInformation.__repr__`: total also when the policy identifier is
`None`. -/
def PolicyInformation.pyRepr (pi : PolicyInformation) : String :=
  "<PolicyInformation(oid=" ++
    (match pi.policyIdentifier with | none => "None" | some s => s) ++
    ", qualifiers=" ++ pyReprSerializedQualifiers pi.serializeQualifiers ++ ")>"

/-- An RFC 7807 problem document as produced by `AcmeResponseError`. -/
structure ProblemDocument where
  type : String
  status : Nat
  detail : Option String
deriving DecidableEq, Repr

/-- An ACME error response: HTTP status, content type and problem body. -/
structure AcmeErrorResponse where
  status_code : Nat
  content_type : String
  body : ProblemDocument
deriving DecidableEq, Repr

/-- `AcmeResponseError.__init__` with the class attributes `status_code`,
`type` and `message` resolved statically per subclass: the detail is the
argument if truthy, else the class message, and the key is omitted when
the result is falsy. -/
def mkAcmeErrorResponse (statusCode : Nat) (ty : String)
    (classMessage msgArg : String) : AcmeErrorResponse :=
  let message := if msgArg = "" then classMessage else msgArg
  { status_code := statusCode,
    content_type := "application/problem+json",
    body := { type := "urn:ietf:params:acme:error:" ++ ty,
              status := statusCode,
              detail := if message = "" then none else some message } }

/-- `AcmeResponseError` (serverInternal, HTTP 500, no default message). -/
def acmeResponseServerInternal (msg : String) : AcmeErrorResponse :=
  mkAcmeErrorResponse 500 "serverInternal" "" msg

/-- `AcmeResponseMalformed` (HTTP 400). -/
def acmeResponseMalformed (msg : String) : AcmeErrorResponse :=
  mkAcmeErrorResponse 400 "malformed" "" msg

/-- `AcmeResponseUnauthorized` (HTTP 401 with a fixed default message). -/
def acmeResponseUnauthorized (msg : String) : AcmeErrorResponse :=
  mkAcmeErrorResponse 401 "unauthorized" "You are not authorized to perform this request." msg

/-- `AcmeResponseBadNonce` (HTTP 400, type badNonce). -/
def acmeResponseBadNonce (msg : String) : AcmeErrorResponse :=
  mkAcmeErrorResponse 400 "badNonce" "Bad or invalid nonce." msg

/-- `AcmeResponseUnsupportedMediaType`: inherits `type = malformed` from
`AcmeResponseMalformed` but overrides `status_code` with
`HTTPStatus.UNSUPPORTED_MEDIA_TYPE`, which is 415. -/
def acmeResponseUnsupportedMediaType (msg : String) : AcmeErrorResponse :=
  mkAcmeErrorResponse 415 "malformed" "Requests must use the application/jose+json content type." msg

/-- A JSON value as used by the account-created body: a string or a list
of strings. -/
inductive JsonValue where
  | str (s : String)
  | strList (l : List String)
deriving DecidableEq, Repr

/-- The slice of an `AcmeAccount` consumed by
`AcmeResponseAccountCreated`. -/
structure AcmeAccount where
  status : String
  contact : String
  pk : Nat
deriving DecidableEq, Repr

/-- Modelled from the spec: `request.build_absolute_uri(reverse(
django_ca:acme-account, pk))`; URL reversing is not under src/, the
account resource URI is an injective function of the primary key. -/
def acmeAccountUri (pk : Nat) : String :=
  "http://localhost:8000/django_ca/acme/acct/" ++ toString pk ++ "/"

/-- Modelled from the spec: `request.build_absolute_uri(reverse(
django_ca:acme-account-orders, pk))`, see `acmeAccountUri`. -/
def acmeAccountOrdersUri (pk : Nat) : String :=
  "http://localhost:8000/django_ca/acme/acct/" ++ toString pk ++ "/orders/"

/-- A JSON response with a status code, an ordered JSON-object body and an
optional Location header. -/
structure AcmeJsonResponse where
  status_code : Nat
  body : List (String × JsonValue)
  location : Option String
deriving DecidableEq, Repr

/-- `AcmeResponseAccountCreated.__init__`: HTTP 201 (CREATED), a body with
the keys `status`, `contanct` (spelled exactly as in the source, holding
the contact wrapped in a singleton list) and `orders`, and a `Location`
header pointing at the account resource. -/
def acmeResponseAccountCreated (account : AcmeAccount) : AcmeJsonResponse :=
  { status_code := 201,
    body := [("status", .str account.status),
             ("contanct", .strList [account.contact]),
             ("orders", .str (acmeAccountOrdersUri account.pk))],
    location := some (acmeAccountUri account.pk) }

/-- Key lookup in an ordered JSON-object body. -/
def bodyLookup (body : List (String × JsonValue)) (k : String) : Option JsonValue :=
  body.lookup k

/-- Modelled from the spec: the nonce store of the ACME view layer (not
under src/): a nonce is stored keyed by its value with a use count of
zero when issued. -/
structure NonceStore where
  entries : List (String × Nat)
deriving DecidableEq, Repr

/-- Look a nonce up in the store. -/
def NonceStore.lookupNonce (st : NonceStore) (n : String) : Option Nat :=
  st.entries.lookup n

/-- Issue a nonce: stored with use count zero. -/
def NonceStore.issue (st : NonceStore) (n : String) : NonceStore :=
  ⟨(n, 0) :: st.entries⟩

/-- Consume a nonce: its use count becomes non-zero. -/
def NonceStore.consume (st : NonceStore) (n : String) : NonceStore :=
  ⟨st.entries.map (fun e => if e.1 = n then (e.1, e.2 + 1) else e)⟩

/-- A badNonce outcome: the error response from `AcmeResponseBadNonce`
plus the Replay-Nonce response header. -/
structure AcmeBadNonceResult where
  response : AcmeErrorResponse
  replayNonce : Option String
deriving DecidableEq, Repr

/-- The rejection outcome: issue a fresh nonce and answer with
`AcmeResponseBadNonce`, the fresh nonce in the Replay-Nonce header. -/
def acmeBadNonceOutcome (st : NonceStore) (fresh : String) :
    NonceStore × Option AcmeBadNonceResult :=
  (st.issue fresh, some { response := acmeResponseBadNonce "", replayNonce := some fresh })

/-- Validation of a presented (non-missing) nonce: unknown or already
consumed nonces are rejected, a known unused nonce is consumed. -/
def acmeValidateKnownNonce (st : NonceStore) (n : String) (fresh : String) :
    NonceStore × Option AcmeBadNonceResult :=
  match st.lookupNonce n with
  | none => acmeBadNonceOutcome st fresh
  | some cnt => if cnt = 0 then (st.consume n, none) else acmeBadNonceOutcome st fresh

/-- Modelled from the spec: nonce validation in the ACME view layer (not
under src/): a missing, unknown or already consumed nonce yields
`AcmeResponseBadNonce` (from src/ca/django_ca/acme.py) with a newly
issued nonce attached in the Replay-Nonce header; a known unused nonce is
consumed and no error is produced. -/
def acmeValidateNonce (st : NonceStore) (presented : Option String)
    (fresh : String) : NonceStore × Option AcmeBadNonceResult :=
  match presented with
  | none => acmeBadNonceOutcome st fresh
  | some n => acmeValidateKnownNonce st n fresh

/-- The slice of a `CertificateAuthority` consumed by
`BaseSignCommand.test_options`: its expiry as an absolute timestamp in
seconds. -/
structure SigningCA where
  expires : Int
deriving DecidableEq, Repr

/-- `(ca.expires - timezone.now()).days`: the whole days the CA has left,
`timedelta.days` being the floor of the total seconds over 86400. -/
def remainingWholeDays (ca : SigningCA) (now : Int) : Int :=
  Int.fdiv (ca.expires - now) 86400

/-- `BaseSignCommand.test_options`: when `ca.expires < now + expires` the
command fails with a `CommandError` reporting the maximum day count
`(ca.expires - now).days`; otherwise the private key is tested. -/
def testOptions (ca : SigningCA) (now : Int) (expiresDelta : Int)
    (keyOk : Bool) : Except PyError Unit :=
  if ca.expires < now + expiresDelta then
    .error (.commandError
      ("Certificate would outlive CA, maximum expiry for this CA is " ++
       toString (remainingWholeDays ca now) ++ " days."))
  else if keyOk then .ok ()
  else .error (.commandError "could not load private key")

/-- Counters for issuance side effects: certificates created, pre-issue
and post-issue hook invocations. -/
structure SignSideEffects where
  certsCreated : Nat
  preIssueHooks : Nat
  postIssueHooks : Nat
deriving DecidableEq, Repr

/-- Modelled from the spec: the sign-certificate command flow (the command
module itself is not under src/; its behaviour is fixed by
`BaseSignCommand.test_options` and the test `test_expiry_too_late`):
options are validated before issuance; on a validation error no
certificate is created and neither hook fires; on success the pre-issue
hook fires, exactly one certificate is created and the post-issue hook
fires. -/
def signCert (ca : SigningCA) (now expiresDelta : Int) (keyOk : Bool) :
    SignSideEffects × Option PyError :=
  match testOptions ca now expiresDelta keyOk with
  | .error e => ({ certsCreated := 0, preIssueHooks := 0, postIssueHooks := 0 }, some e)
  | .ok _ => ({ certsCreated := 1, preIssueHooks := 1, postIssueHooks := 1 }, none)

/-- Re-constructing a `PolicyInformation` from its serialized dict form:
`PolicyInformation(pi.serialize())`. -/
def reconstructPolicyInformation (sd : SerializedPolicyInformation) : PolicyInformation :=
  PolicyInformation.initDict sd.policyIdentifier
    (sd.policyQualifiers.map (List.map SerializedQualifier.toParsable))

/-- The null-vs-empty invariant of the qualifier list: the field is `None`
or a non-empty list, never the empty list. -/
def qualifiersInvariant (pi : PolicyInformation) : Prop :=
  pi.policyQualifiers ≠ some []

instance (pi : PolicyInformation) : Decidable (qualifiersInvariant pi) := by
  unfold qualifiersInvariant; infer_instance

/-- Serialization-stable policy qualifiers: a user notice whose explicit
text is the empty string loses it on serialization (the key is only
written when truthy), and a notice reference with `organization = None`
comes back as the string `None` through `force_str`; both are excluded. -/
def qualifierWf : PolicyQualifier → Prop
  | .text _ => True
  | .notice u =>
    u.explicitText ≠ some "" ∧
      ∀ nr, u.noticeReference = some nr → nr.organization.isSome

/-- Serialization-stable `PolicyInformation`: a policy identifier is
present (`serialize` needs `dotted_string`), the qualifier list is not the
empty list (`serialize` would drop the key, which does not re-parse to an
empty list), and every qualifier is serialization stable. -/
def piWf (pi : PolicyInformation) : Prop :=
  pi.policyIdentifier.isSome ∧ pi.policyQualifiers ≠ some [] ∧
    ∀ l, pi.policyQualifiers = some l → ∀ q ∈ l, qualifierWf q

/-- The badNonce contract on a nonce-validation outcome: an error response
with HTTP 400 and the badNonce type, the fresh nonce attached in the
Replay-Nonce header, and the fresh nonce newly issued (stored unused) in
the resulting store. -/
def badNonceProperties (fresh : String)
    (r : NonceStore × Option AcmeBadNonceResult) : Prop :=
  ∃ out, r.2 = some out ∧
    out.response.status_code = 400 ∧
    out.response.body.type = "urn:ietf:params:acme:error:badNonce" ∧
    out.replayNonce = some fresh ∧
    r.1.lookupNonce fresh = some 0

theorem reasonOfName_reasonName (r : ReasonFlags) :
    reasonOfName (reasonName r) = .ok r := by
  cases r <;> rfl

theorem exceptMapM_map_reasonName (l : List ReasonFlags) :
    exceptMapM reasonOfName (l.map reasonName) = .ok l := by
  induction l with
  | nil => rfl
  | cons a l ih =>
    simp only [List.map_cons, exceptMapM, reasonOfName_reasonName, ih]

theorem reasonSetOfList_filter_mem (s : ReasonSet) :
    reasonSetOfList (reasonsSortedByName.filter s.mem) = s := by
  obtain ⟨a, b, c, d, e, f, g, h, i, j⟩ := s
  revert a b c d e f g h i j
  decide

theorem normalizeQualifiers_ne_some_nil (l : List PolicyQualifier) :
    normalizeQualifiers l ≠ some [] := by
  unfold normalizeQualifiers
  split
  · simp
  · simp_all

theorem pyInsertIndex_le (len : Nat) (i : Int) : pyInsertIndex len i ≤ len := by
  unfold pyInsertIndex
  split <;> omega

theorem qualifier_roundtrip (q : PolicyQualifier) (h : qualifierWf q) :
    parsePolicyQualifier (serializePolicyQualifier q).toParsable = q := by
  cases q with
  | text s => rfl
  | notice u =>
    obtain ⟨et, nr⟩ := u
    obtain ⟨h1, h2⟩ := h
    cases nr with
    | none =>
      cases et with
      | none => rfl
      | some s =>
        have hs : s ≠ "" := fun hs => h1 (by simp [hs])
        simp [serializePolicyQualifier, truthyStr, hs,
          SerializedQualifier.toParsable, parsePolicyQualifier]
    | some r =>
      obtain ⟨org, nn⟩ := r
      obtain ⟨o, ho⟩ := Option.isSome_iff_exists.mp (h2 ⟨org, nn⟩ rfl)
      subst ho
      cases et with
      | none =>
        simp [serializePolicyQualifier, truthyStr,
          SerializedQualifier.toParsable, parsePolicyQualifier, forceStrOpt]
      | some s =>
        have hs : s ≠ "" := fun hs => h1 (by simp [hs])
        simp [serializePolicyQualifier, truthyStr, hs,
          SerializedQualifier.toParsable, parsePolicyQualifier, forceStrOpt]

/-- C1 counterexample: the claim says every mutation operation leaves the
`policy_qualifiers` field null or non-empty, but `extend` with an empty
iterable applied in the null state replaces `None` by a freshly created
empty list and leaves it there. -/
theorem C1_counterexample :
    ¬ qualifiersInvariant
        ((PolicyInformation.mk (some "2.5.29.32.0") none).extend []) := by
  decide

/-- C1 (amended): after `append`, `insert`, `remove`, `pop`, item
deletion and `clear` the `policy_qualifiers` field is null or a non-empty
list, and `extend` also maintains this unless it is given an empty
iterable in the null state (in which case the field becomes an empty
list); `append` followed by `pop` on the null state restores the null
state, in which `serialize()` omits the `policy_qualifiers` key. -/
theorem C1_qualifier_mutations (pi : PolicyInformation)
    (hinv : qualifiersInvariant pi) :
    (∀ v, qualifiersInvariant (pi.append v)) ∧
    (∀ i v, qualifiersInvariant (pi.insertQualifier i v)) ∧
    (∀ vs, (vs ≠ [] ∨ pi.policyQualifiers ≠ none) →
      qualifiersInvariant (pi.extend vs)) ∧
    (∀ i out pi2, pi.pop i = .ok (out, pi2) → qualifiersInvariant pi2) ∧
    (∀ i pi2, pi.delItem i = .ok pi2 → qualifiersInvariant pi2) ∧
    (∀ v q pi2, pi.removeQualifier v = .ok (q, pi2) → qualifiersInvariant pi2) ∧
    qualifiersInvariant pi.clear ∧
    (∀ oid v, ((PolicyInformation.mk (some oid) none).append v).pop (-1)
        = .ok (serializePolicyQualifier (parsePolicyQualifier v),
               PolicyInformation.mk (some oid) none)) ∧
    (∀ oid, (PolicyInformation.mk (some oid) none).serialize
        = .ok { policyIdentifier := oid, policyQualifiers := none }) := by
  refine ⟨?_, ?_, ?_, ?_, ?_, ?_, ?_, ?_, ?_⟩
  · intro v
    simp [PolicyInformation.append, qualifiersInvariant]
  · intro i v
    have hlen := pyInsertIndex_le (pi.policyQualifiers.getD []).length i
    simp only [PolicyInformation.insertQualifier, qualifiersInvariant, ne_eq,
      Option.some.injEq]
    intro hnil
    have := congrArg List.length hnil
    rw [List.length_insertIdx _ _ hlen] at this
    simp at this
  · intro vs hvs
    simp only [PolicyInformation.extend, qualifiersInvariant, ne_eq,
      Option.some.injEq, List.append_eq_nil]
    rintro ⟨hl, hr⟩
    cases hq : pi.policyQualifiers with
    | none =>
      rcases hvs with hvs | hvs
      · exact hvs (by simpa using hr)
      · exact hvs hq
    | some l =>
      apply hinv
      rw [hq]
      rw [hq] at hl
      simp at hl
      rw [hl]
  · intro i out pi2 h
    unfold PolicyInformation.pop at h
    split at h
    · simp at h
    · rename_i l hleq
      split at h
      · split at h <;> simp at h
      · rename_i j hjeq
        split at h
        · simp at h
        · rename_i q hqeq
          simp only [Except.ok.injEq, Prod.mk.injEq] at h
          rw [← h.2]
          simpa [qualifiersInvariant] using
            normalizeQualifiers_ne_some_nil (l.eraseIdx j)
  · intro i pi2 h
    unfold PolicyInformation.delItem at h
    split at h
    · simp at h
    · rename_i l hleq
      split at h
      · simp at h
      · rename_i j hjeq
        simp only [Except.ok.injEq] at h
        rw [← h]
        simpa [qualifiersInvariant] using
          normalizeQualifiers_ne_some_nil (l.eraseIdx j)
  · intro v q pi2 h
    unfold PolicyInformation.removeQualifier at h
    split at h
    · simp at h
    · rename_i l hleq
      split at h
      · simp only [Except.ok.injEq, Prod.mk.injEq] at h
        rw [← h.2]
        simpa [qualifiersInvariant] using
          normalizeQualifiers_ne_some_nil (l.erase (parsePolicyQualifier v))
      · simp at h
  · simp [PolicyInformation.clear, qualifiersInvariant]
  · intro oid v
    rfl
  · intro oid
    rfl

/-- C1 witness: the amended statement at concrete inputs. -/
theorem C1_qualifier_mutations_witness :
    qualifiersInvariant
      ((PolicyInformation.mk (some "2.5.29.32.0") (some [.text "q1"])).append (.str "q2")) ∧
    qualifiersInvariant
      ((PolicyInformation.mk (some "2.5.29.32.0") (some [.text "q1"])).extend [.str "q2"]) ∧
    ((PolicyInformation.mk (some "2.5.29.32.0") none).append (.str "q2")).pop (-1)
      = .ok (.str "q2", PolicyInformation.mk (some "2.5.29.32.0") none) := by
  have h := C1_qualifier_mutations
    (PolicyInformation.mk (some "2.5.29.32.0") (some [.text "q1"])) (by decide)
  exact ⟨h.1 _, h.2.2.1 _ (Or.inl (by decide)),
    h.2.2.2.2.2.2.2.1 "2.5.29.32.0" (.str "q2")⟩

/-- C2 counterexample: the claim gives the unsupported-media-type response
HTTP status 400, but `AcmeResponseUnsupportedMediaType` overrides the
inherited status with `HTTPStatus.UNSUPPORTED_MEDIA_TYPE`, i.e. 415. -/
theorem C2_counterexample :
    (acmeResponseUnsupportedMediaType "").status_code = 415 ∧
      ¬ (acmeResponseUnsupportedMediaType "").status_code = 400 := by
  constructor
  · rfl
  · decide

/-- C2 (amended): the unsupported-media-type protocol error response has
HTTP status 415, carries the malformed error type identifier
`urn:ietf:params:acme:error:malformed`, and its detail field is the fixed
content-type requirement message. -/
theorem C2_unsupported_media_type :
    (acmeResponseUnsupportedMediaType "").status_code = 415 ∧
    (acmeResponseUnsupportedMediaType "").body.type
      = "urn:ietf:params:acme:error:malformed" ∧
    (acmeResponseUnsupportedMediaType "").body.detail
      = some "Requests must use the application/jose+json content type." ∧
    (acmeResponseUnsupportedMediaType "").body.status = 415 ∧
    (acmeResponseUnsupportedMediaType "").content_type
      = "application/problem+json" := by
  refine ⟨rfl, rfl, ?_, rfl, rfl⟩
  decide

/-- C3: whenever the presented nonce is missing, unknown, or already
consumed, the outcome is a badNonce error response with HTTP status 400,
error type `urn:ietf:params:acme:error:badNonce`, and a Replay-Nonce
header carrying the newly issued nonce (stored unused in the resulting
store). -/
theorem C3_bad_nonce (st : NonceStore) (fresh : String) :
    badNonceProperties fresh (acmeValidateNonce st none fresh) ∧
    (∀ n, st.lookupNonce n = none →
      badNonceProperties fresh (acmeValidateNonce st (some n) fresh)) ∧
    (∀ n c, st.lookupNonce n = some c → c ≠ 0 →
      badNonceProperties fresh (acmeValidateNonce st (some n) fresh)) := by
  have hbad : badNonceProperties fresh (acmeBadNonceOutcome st fresh) := by
    refine ⟨_, rfl, rfl, rfl, rfl, ?_⟩
    simp [acmeBadNonceOutcome, NonceStore.issue, NonceStore.lookupNonce, List.lookup]
  refine ⟨hbad, ?_, ?_⟩
  · intro n hn
    unfold acmeValidateNonce acmeValidateKnownNonce
    simp only [hn]
    exact hbad
  · intro n c hc hne
    unfold acmeValidateNonce acmeValidateKnownNonce
    simp only [hc, if_neg hne]
    exact hbad

/-- C3 witness: a store holding one consumed nonce. -/
theorem C3_bad_nonce_witness :
    badNonceProperties "fresh1" (acmeValidateNonce ⟨[("n1", 1)]⟩ none "fresh1") ∧
    badNonceProperties "fresh1" (acmeValidateNonce ⟨[("n1", 1)]⟩ (some "n2") "fresh1") ∧
    badNonceProperties "fresh1" (acmeValidateNonce ⟨[("n1", 1)]⟩ (some "n1") "fresh1") := by
  have h := C3_bad_nonce ⟨[("n1", 1)]⟩ "fresh1"
  exact ⟨h.1, h.2.1 "n2" (by decide), h.2.2 "n1" 1 (by decide) (by decide)⟩

/-- C4: constructing a `DistributionPoint` from a dict supplying both
`full_name` and `relative_name` raises `ValueError` (whatever the other
two fields hold), while supplying no keys at all succeeds and yields a
`DistributionPoint` with all four fields unset. -/
theorem C4_distribution_point_exclusivity :
    (∀ (fn : List String) (rn : String) (cr : Option (List String))
        (rs : Option (List String)),
      DistributionPoint.init
          { full_name := some fn, relative_name := some rn,
            crl_issuer := cr, reasons := rs }
        = .error (.valueError "full_name and relative_name cannot both have a value")) ∧
    DistributionPoint.init
        { full_name := none, relative_name := none, crl_issuer := none, reasons := none }
      = .ok { full_name := none, relative_name := none,
              crl_issuer := none, reasons := none } := by
  exact ⟨fun fn rn cr rs => rfl, rfl⟩

/-- C4 witness: the theorem applied at concrete field values. -/
theorem C4_distribution_point_exclusivity_witness :
    DistributionPoint.init
        { full_name := some ["URI:http://example.com"],
          relative_name := some "/CN=example.com",
          crl_issuer := none, reasons := some ["key_compromise"] }
      = .error (.valueError "full_name and relative_name cannot both have a value") :=
  C4_distribution_point_exclusivity.1 ["URI:http://example.com"] "/CN=example.com"
    none (some ["key_compromise"])

/-- C5: `pop` on a `PolicyInformation` whose qualifier list is absent
(`None`) or empty always fails with an `IndexError` (raised by popping an
empty list), for every index; it never succeeds. -/
theorem C5_pop_empty_fails (pi : PolicyInformation) (i : Int)
    (h : pi.policyQualifiers = none ∨ pi.policyQualifiers = some []) :
    pi.pop i = .error (.indexError "pop from empty list") := by
  obtain ⟨pid, pq⟩ := pi
  rcases h with h | h <;> simp only at h <;> subst h
  · rfl
  · have hcond : ¬(0 ≤ pyResolvedIndex 0 i ∧ pyResolvedIndex 0 i < ((0 : Nat) : Int)) := by
      unfold pyResolvedIndex
      split <;> omega
    have hj : pyIndex 0 i = none := by
      unfold pyIndex
      rw [if_neg hcond]
    unfold PolicyInformation.pop
    simp [hj]

/-- C5 witness: popping the default index from the null state. -/
theorem C5_pop_empty_fails_witness :
    (PolicyInformation.mk (some "2.5.29.32.0") none).policyQualifiers = none ∧
    (PolicyInformation.mk (some "2.5.29.32.0") none).pop (-1)
      = .error (.indexError "pop from empty list") :=
  ⟨rfl, C5_pop_empty_fails (PolicyInformation.mk (some "2.5.29.32.0") none) (-1)
    (Or.inl rfl)⟩

/-- C6 counterexample: a `PolicyInformation` built from the valid input
dict with `policy_qualifiers = []` serializes without the key (the
serialized list is falsy), so re-construction yields the null state and
the round trip does not restore the original object. -/
theorem C6_counterexample :
    (PolicyInformation.initDict "2.5.29.32.0" (some [])).serialize.map
        reconstructPolicyInformation
      = .ok (PolicyInformation.mk (some "2.5.29.32.0") none) ∧
    PolicyInformation.mk (some "2.5.29.32.0") none
      ≠ PolicyInformation.initDict "2.5.29.32.0" (some []) := by
  exact ⟨rfl, by decide⟩

/-- C6 (amended): re-construction from `serialize()` restores the object
for every `DistributionPoint` not holding both name forms, and for every
`PolicyInformation` that has a policy identifier, whose qualifier list is
not the empty list, and whose user-notice qualifiers have no empty
explicit text and no absent notice-reference organization. -/
theorem C6_roundtrip (dp : DistributionPoint) (pi : PolicyInformation)
    (hdp : ¬(dp.full_name.isSome ∧ dp.relative_name.isSome))
    (hpi : piWf pi) :
    DistributionPoint.init dp.serialize = .ok dp ∧
    pi.serialize.map reconstructPolicyInformation = .ok pi := by
  constructor
  · obtain ⟨fn, rn, cr, rs⟩ := dp
    have hcond : ((getFromValue fn).isSome && (rn.map formatRelativeName).isSome) = false := by
      cases fn with
      | none => simp [getFromValue]
      | some l =>
        cases rn with
        | none => simp
        | some r => exact absurd ⟨rfl, rfl⟩ hdp
    have hrel : (rn.map formatRelativeName).map x509RelativeName = rn := by
      cases rn <;> rfl
    unfold DistributionPoint.serialize DistributionPoint.init
    rw [hcond]
    simp only [Bool.false_eq_true, if_false]
    cases rs with
    | none => simp [hrel, getFromValue]
    | some s =>
      have hser : exceptMapM reasonOfName s.sortedNames
          = .ok (reasonsSortedByName.filter s.mem) := by
        unfold ReasonSet.sortedNames
        exact exceptMapM_map_reasonName _
      simp only [Option.map_some']
      rw [hser]
      simp [hrel, getFromValue, reasonSetOfList_filter_mem]
  · obtain ⟨hid, hne, hq⟩ := hpi
    obtain ⟨pid, pq⟩ := pi
    obtain ⟨oid, rfl⟩ : ∃ oid, pid = some oid := by
      cases pid with
      | none => simp at hid
      | some o => exact ⟨o, rfl⟩
    cases pq with
    | none => rfl
    | some l =>
      have hl : l ≠ [] := by
        intro h
        exact hne (by simp only at hne ⊢; rw [h])
      have hmapne : ¬(l.map serializePolicyQualifier = []) := by
        simp [hl]
      unfold PolicyInformation.serialize PolicyInformation.serializeQualifiers
      simp only [Option.map_some']
      rw [if_neg hmapne]
      have key : ∀ (m : List PolicyQualifier), (∀ q ∈ m, qualifierWf q) →
          m.map (fun q => parsePolicyQualifier (serializePolicyQualifier q).toParsable)
            = m := by
        intro m hm
        induction m with
        | nil => rfl
        | cons a t ih =>
          simp only [List.map_cons, List.cons.injEq]
          refine ⟨qualifier_roundtrip a (hm a (by simp)), ih ?_⟩
          intro q hq2
          exact hm q (by simp [hq2])
      simp only [Except.map, reconstructPolicyInformation, PolicyInformation.initDict,
        Option.map_some', List.map_map]
      rw [show (parsePolicyQualifier ∘ SerializedQualifier.toParsable ∘ serializePolicyQualifier)
            = (fun q => parsePolicyQualifier (serializePolicyQualifier q).toParsable) from rfl]
      rw [key l (hq l rfl)]

/-- C6 witness: the amended round trip at a concrete distribution point
(with CRL issuer and two reasons) and a concrete policy information (a
text qualifier and a full user notice). -/
theorem C6_roundtrip_witness :
    DistributionPoint.init
        (DistributionPoint.serialize
          { full_name := some ["URI:http://crl.example.com"], relative_name := none,
            crl_issuer := some ["URI:http://issuer.example.com"],
            reasons := some (reasonSetOfList [.key_compromise, .ca_compromise]) })
      = .ok { full_name := some ["URI:http://crl.example.com"], relative_name := none,
              crl_issuer := some ["URI:http://issuer.example.com"],
              reasons := some (reasonSetOfList [.key_compromise, .ca_compromise]) } ∧
    (PolicyInformation.serialize
        { policyIdentifier := some "2.5.29.32.0",
          policyQualifiers := some [.text "text1",
            .notice { explicitText := some "text2",
                      noticeReference := some { organization := some "org",
                                                noticeNumbers := [1, 2] } }] }).map
        reconstructPolicyInformation
      = .ok { policyIdentifier := some "2.5.29.32.0",
              policyQualifiers := some [.text "text1",
                .notice { explicitText := some "text2",
                          noticeReference := some { organization := some "org",
                                                    noticeNumbers := [1, 2] } }] } :=
  C6_roundtrip _ _ (by decide) (by
    refine ⟨rfl, by decide, ?_⟩
    intro l hl
    simp only [Option.some.injEq] at hl
    subst hl
    intro q hq
    simp only [List.mem_cons, List.mem_singleton] at hq
    rcases hq with rfl | rfl | h
    · trivial
    · refine ⟨by decide, ?_⟩
      rintro nr hnr
      simp only [Option.some.injEq] at hnr
      subst hnr
      rfl
    · cases h)

/-- C7 (code evaluation): the account-created response has status 201 and
the Location header of the account resource, but its JSON body carries
the contact list under the misspelled key `contanct`, not under
`contact`, so the body does not list the contact as the protocol
requires. -/
theorem C7_account_created_eval :
    (acmeResponseAccountCreated
        { status := "valid", contact := "mailto:user@example.com", pk := 42 }).status_code
      = 201 ∧
    (acmeResponseAccountCreated
        { status := "valid", contact := "mailto:user@example.com", pk := 42 }).location
      = some (acmeAccountUri 42) ∧
    bodyLookup (acmeResponseAccountCreated
        { status := "valid", contact := "mailto:user@example.com", pk := 42 }).body "status"
      = some (.str "valid") ∧
    bodyLookup (acmeResponseAccountCreated
        { status := "valid", contact := "mailto:user@example.com", pk := 42 }).body "orders"
      = some (.str (acmeAccountOrdersUri 42)) ∧
    bodyLookup (acmeResponseAccountCreated
        { status := "valid", contact := "mailto:user@example.com", pk := 42 }).body "contanct"
      = some (.strList ["mailto:user@example.com"]) ∧
    bodyLookup (acmeResponseAccountCreated
        { status := "valid", contact := "mailto:user@example.com", pk := 42 }).body "contact"
      = none := by
  refine ⟨rfl, rfl, ?_, ?_, ?_, ?_⟩ <;> decide

/-- C8: whenever the requested validity period would outlive the issuing
CA, signing fails with a `CommandError` whose message reports exactly the
maximum allowable day count (the CA's remaining whole days at request
time); no certificate is created and neither issuance hook fires. -/
theorem C8_expiry_exceeds_ca_validity (ca : SigningCA) (now delta : Int)
    (keyOk : Bool) (h : ca.expires < now + delta) :
    signCert ca now delta keyOk =
      ({ certsCreated := 0, preIssueHooks := 0, postIssueHooks := 0 },
       some (.commandError
         ("Certificate would outlive CA, maximum expiry for this CA is " ++
          toString (remainingWholeDays ca now) ++ " days."))) := by
  unfold signCert testOptions
  rw [if_pos h]

/-- C8 witness: a CA with ten whole days left, asked for thirteen days. -/
theorem C8_expiry_exceeds_ca_validity_witness :
    (864000 : Int) < 0 + 1123200 ∧
    remainingWholeDays { expires := 864000 } 0 = 10 ∧
    signCert { expires := 864000 } 0 1123200 true =
      ({ certsCreated := 0, preIssueHooks := 0, postIssueHooks := 0 },
       some (.commandError
         ("Certificate would outlive CA, maximum expiry for this CA is " ++
          toString (remainingWholeDays { expires := 864000 } (0 : Int)) ++ " days."))) :=
  ⟨by decide, by decide,
   C8_expiry_exceeds_ca_validity { expires := 864000 } 0 1123200 true (by decide)⟩

/-- C9: `as_text` on a `DistributionPoint` with neither `full_name` nor
`relative_name` fails with an unbound-variable error on the local `text`,
whatever `crl_issuer` and `reasons` hold. -/
theorem C9_as_text_unbound (dp : DistributionPoint)
    (h1 : dp.full_name = none) (h2 : dp.relative_name = none) :
    dp.asText = .error (.unboundLocalError "text") := by
  obtain ⟨fn, rn, cr, rs⟩ := dp
  simp only at h1 h2
  subst h1
  subst h2
  rfl

/-- C9 witness: both optional extras present. -/
theorem C9_as_text_unbound_witness :
    (DistributionPoint.mk none none (some ["URI:http://crl.example.com"])
        (some (reasonSetOfList [.key_compromise]))).asText
      = .error (.unboundLocalError "text") :=
  C9_as_text_unbound
    (DistributionPoint.mk none none (some ["URI:http://crl.example.com"])
      (some (reasonSetOfList [.key_compromise]))) rfl rfl

/-- C10: `serialize` on a `PolicyInformation` without a policy identifier
fails with an `AttributeError` (reading `dotted_string` off `None`),
while construction from no data succeeds in exactly that state and the
read operations `len`, `contains` and `repr` are total on it. -/
theorem C10_serialize_requires_identifier
    (pq : Option (List PolicyQualifier)) (v : ParsableQualifier) :
    (PolicyInformation.mk none pq).serialize
      = .error (.attributeError "NoneType object has no attribute dotted_string") ∧
    PolicyInformation.initNone = PolicyInformation.mk none none ∧
    PolicyInformation.initNone.lenQualifiers = 0 ∧
    PolicyInformation.initNone.containsQualifier v = false ∧
    PolicyInformation.initNone.pyRepr
      = "<PolicyInformation(oid=None, qualifiers=None)>" := by
  exact ⟨rfl, rfl, rfl, rfl, rfl⟩

/-- C10 witness: the statement at a concrete qualifier state and probe
value. -/
theorem C10_serialize_requires_identifier_witness :
    (PolicyInformation.mk none (some [.text "q"])).serialize
      = .error (.attributeError "NoneType object has no attribute dotted_string") ∧
    PolicyInformation.initNone = PolicyInformation.mk none none ∧
    PolicyInformation.initNone.lenQualifiers = 0 ∧
    PolicyInformation.initNone.containsQualifier (.str "q") = false ∧
    PolicyInformation.initNone.pyRepr
      = "<PolicyInformation(oid=None, qualifiers=None)>" :=
  C10_serialize_requires_identifier (some [.text "q"]) (.str "q")
